import Mathlib

/-!
Verification of the BookTracker web client (personal reading-list tracker).

The development shallowly embeds the client-side logic of the repository:
string normalization helpers mirroring the JavaScript primitives the code
uses (`trim`, `toLowerCase`, `includes`, falsy-`||` defaulting), the Book
data model, the List View filter, the Create and Detail/Edit submit
handlers, the shared Form Component, the Route Guard, the Session
Provider, and the Login error mapping.  Asynchronous handlers are embedded
as pure functions from the collaborator's response to an explicit outcome
value; a `throw` site is an `Except.error` and a `try`/`catch` block is
`jsTryCatch`.
-/

/-- JS `String.prototype.toLowerCase`, modelled character by character. -/
def jsToLower (s : String) : String := ⟨s.data.map Char.toLower⟩

/-- JS `String.prototype.trim`: drop whitespace from both ends. -/
def jsTrim (s : String) : String :=
  ⟨((s.data.dropWhile Char.isWhitespace).reverse.dropWhile Char.isWhitespace).reverse⟩

/-- Substring test on character lists: does `needle` occur contiguously in
`hay`?  (Backs `jsIncludes` below.) -/
def charsContain (hay needle : List Char) : Bool :=
  needle.isPrefixOf hay ||
    match hay with
    | [] => false
    | _ :: t => charsContain t needle

/-- JS `s.includes(sub)`: `sub` occurs as a contiguous substring of `s`. -/
def jsIncludes (s sub : String) : Bool := charsContain s.data sub.data

/-- JS `s || null` on a string: the empty string is falsy and collapses to
null, every other string is kept. -/
def jsStrOrNull (s : String) : Option String := if s = "" then none else some s

/-- JS `s || dflt` on a string: the empty string is falsy. -/
def jsStrOr (s dflt : String) : String := if s = "" then dflt else s

/-- JS `n || dflt` on a number: `0` is falsy. -/
def jsIntOr (n dflt : Int) : Int := if n = 0 then dflt else n

/-- JS `x || null` on a nullable number: both `null` and `0` are falsy. -/
def jsNumOrNull (x : Option Int) : Option Int :=
  match x with
  | none => none
  | some n => if n = 0 then none else some n

/-- JS `b || dflt` on a boolean. -/
def jsBoolOr (b dflt : Bool) : Bool := if b = false then dflt else b

/-- JS `try { body } catch (e) { handler }` where `body` either resolves to
a value or throws. -/
def jsTryCatch {ε α : Type} (body : Except ε α) (handler : ε → α) : α :=
  match body with
  | .ok a => a
  | .error e => handler e

/-- The reading-status enum of the `books` table
(`'want_to_read' | 'reading' | 'read'`). -/
inductive BookStatus
  | want_to_read
  | reading
  | read
deriving DecidableEq

/-- The wire representation of a status value (in the TypeScript source the
status IS this string). -/
def BookStatus.asString : BookStatus → String
  | .want_to_read => "want_to_read"
  | .reading => "reading"
  | .read => "read"

/-- A stored Book row (data model of spec section 3; the `Book` interfaces of
`Books.tsx` and `BookDetail.tsx` are projections of this row). -/
structure Book where
  id : String
  user_id : String
  title : String
  author : Option String
  status : BookStatus
  rating : Option Int
  review : Option String
  is_favorite : Bool
  reading_progress : Option Int
deriving DecidableEq

/-- `BookFormData` of `BookForm`: the draft of editable fields; `author` and
`review` are plain strings, `reading_progress` a plain number. -/
structure BookFormData where
  title : String
  author : String
  status : BookStatus
  rating : Option Int
  review : String
  is_favorite : Bool
  reading_progress : Int
deriving DecidableEq

/-- `Books.tsx` `filteredBooks` search predicate:
`book.title.toLowerCase().includes(q.toLowerCase()) ||
 (book.author?.toLowerCase().includes(q.toLowerCase()) ?? false)`. -/
def matchesSearch (b : Book) (searchQuery : String) : Bool :=
  jsIncludes (jsToLower b.title) (jsToLower searchQuery) ||
    (match b.author with
     | some a => jsIncludes (jsToLower a) (jsToLower searchQuery)
     | none => false)

/-- `Books.tsx` `filteredBooks` status predicate:
`statusFilter === 'all' || book.status === statusFilter`. -/
def matchesStatus (b : Book) (statusFilter : String) : Bool :=
  statusFilter == "all" || b.status.asString == statusFilter

/-- `Books.tsx` `filteredBooks`: client-side filter over the fetched list. -/
def filteredBooks (books : List Book) (searchQuery statusFilter : String) :
    List Book :=
  books.filter (fun b => matchesSearch b searchQuery && matchesStatus b statusFilter)

/-- The object literal `NewBook.tsx` passes to `supabase.from('books').insert`. -/
structure BookInsertRow where
  user_id : String
  title : String
  author : Option String
  status : BookStatus
  rating : Option Int
  review : Option String
  is_favorite : Bool
  reading_progress : Int
deriving DecidableEq

/-- The row built by `NewBook.tsx` `handleSubmit`: title trimmed, author and
review trimmed then collapsed to null when empty (`x.trim() || null`),
everything else passed through. -/
def NewBook.insertRow (userId : String) (data : BookFormData) : BookInsertRow :=
  { user_id := userId
    title := jsTrim data.title
    author := jsStrOrNull (jsTrim data.author)
    status := data.status
    rating := data.rating
    review := jsStrOrNull (jsTrim data.review)
    is_favorite := data.is_favorite
    reading_progress := data.reading_progress }

/-- Outcome of one run of `NewBook.tsx` `handleSubmit`. -/
inductive NewBookOutcome
  | noop
  | inserted (row : BookInsertRow) (toastTitle : String) (navigateToList : Bool)
  | failedToast
deriving DecidableEq

/-- Body of the `try` block of `NewBook.tsx` `handleSubmit`: the insert call
yields `dbError`; `if (error) throw error`, otherwise success toast and
navigation to the list. -/
def NewBook.handleSubmitTry (userId : String) (dbError : Option String)
    (data : BookFormData) : Except String NewBookOutcome :=
  match dbError with
  | some e => .error e
  | none => .ok (.inserted (NewBook.insertRow userId data) "Book added!" true)

/-- `NewBook.tsx` `handleSubmit`: no-op without a resolved identity, otherwise
the try body with the catch block mapping any thrown error to the generic
failure toast.  Total: the async handler always resolves. -/
def NewBook.handleSubmit (user : Option String) (dbError : Option String)
    (data : BookFormData) : NewBookOutcome :=
  match user with
  | none => .noop
  | some uid => jsTryCatch (NewBook.handleSubmitTry uid dbError data) (fun _ => .failedToast)

/-- The object literal `BookDetail.tsx` `handleUpdate` passes to
`supabase.from('books').update`. -/
structure BookUpdate where
  title : String
  author : Option String
  status : BookStatus
  rating : Option Int
  review : Option String
  is_favorite : Bool
  reading_progress : Int
deriving DecidableEq

/-- The update payload built by `BookDetail.tsx` `handleUpdate`: same trim and
blank-to-null normalization as the insert. -/
def BookDetail.updatePayload (data : BookFormData) : BookUpdate :=
  { title := jsTrim data.title
    author := jsStrOrNull (jsTrim data.author)
    status := data.status
    rating := data.rating
    review := jsStrOrNull (jsTrim data.review)
    is_favorite := data.is_favorite
    reading_progress := data.reading_progress }

/-- Record-store semantics of `update(payload).eq('id', id)` on the matched
row: the named columns are replaced, `id` and `user_id` are untouched. -/
def applyUpdate (b : Book) (u : BookUpdate) : Book :=
  { b with
    title := u.title
    author := u.author
    status := u.status
    rating := u.rating
    review := u.review
    is_favorite := u.is_favorite
    reading_progress := some u.reading_progress }

/-- Outcome of one run of `BookDetail.tsx` `handleUpdate`. -/
inductive UpdateOutcome
  | noop
  | updated (payload : BookUpdate) (toastTitle : String) (navigateToList : Bool)
  | failedToast
deriving DecidableEq

/-- `BookDetail.tsx` `handleUpdate`: no-op without an id, otherwise the try
body (`if (error) throw error`, then success toast and navigation) with the
catch block mapping any thrown error to the generic failure toast. -/
def BookDetail.handleUpdate (id : Option String) (dbError : Option String)
    (data : BookFormData) : UpdateOutcome :=
  match id with
  | none => .noop
  | some _ =>
    jsTryCatch
      (match dbError with
       | some e => Except.error e
       | none => Except.ok (UpdateOutcome.updated (BookDetail.updatePayload data)
           "Book updated!" true))
      (fun _ => .failedToast)

/-- Observable result of `BookDetail.tsx` `fetchBook`: the record state it
writes, the notification it raises (by title), and whether it redirects to
the list view. -/
structure FetchOutcome where
  book : Option Book
  toastTitle : Option String
  navigateToList : Bool
deriving DecidableEq

/-- `BookDetail.tsx` `fetchBook`, as a function of the `maybeSingle` response
`{ data, error }`: `if (error) throw error` (caught below with the generic
toast and redirect); empty result shows the specific not-found toast and
redirects; a row populates state. -/
def BookDetail.fetchBook (data : Option Book) (error : Option String) :
    FetchOutcome :=
  jsTryCatch
    (match error with
     | some e => Except.error e
     | none =>
       match data with
       | none => Except.ok ⟨none, some "Book not found", true⟩
       | some b => Except.ok ⟨some b, none, false⟩)
    (fun _ => ⟨none, some "Error", true⟩)

/-- The `initialData` object `BookDetail.tsx` passes to `BookForm` when
seeding the edit form from a fetched row.  On these nullable fields JS
`x || fallback` agrees with `Option.getD`, because the only falsy non-null
values (the empty string, the number 0) equal the fallback. -/
def BookDetail.initialData (b : Book) : BookFormData :=
  { title := b.title
    author := b.author.getD ""
    status := b.status
    rating := b.rating
    review := b.review.getD ""
    is_favorite := b.is_favorite
    reading_progress := b.reading_progress.getD 0 }

/-- The initial `formData` state of `BookForm`, built from `initialData` with
JS falsy-`||` defaults per field.  `status` is a non-empty string in the
source, so `initialData?.status || 'want_to_read'` is the identity there. -/
def BookForm.initFormData (initialData : BookFormData) : BookFormData :=
  { title := jsStrOr initialData.title ""
    author := jsStrOr initialData.author ""
    status := initialData.status
    rating := jsNumOrNull initialData.rating
    review := jsStrOr initialData.review ""
    is_favorite := jsBoolOr initialData.is_favorite false
    reading_progress := jsIntOr initialData.reading_progress 0 }

/-- Outcome of one run of `BookForm` `handleSubmit`: blocked by title
validation, delegated to the caller's `onSubmit` (which resolved with `r`),
or the form's own generic failure toast after `onSubmit` rejected. -/
inductive BookFormOutcome (γ : Type)
  | titleRequiredToast
  | delegated (r : γ)
  | genericErrorToast
deriving DecidableEq

/-- `BookForm` `handleSubmit`: `if (!formData.title.trim())` show the
blocking "Title required" toast and stop; otherwise `await onSubmit(formData)`
inside `try`/`catch`, the catch showing the local generic failure toast. -/
def BookForm.handleSubmit {γ : Type} (onSubmit : BookFormData → Except Unit γ)
    (formData : BookFormData) : BookFormOutcome γ :=
  if jsTrim formData.title = "" then
    .titleRequiredToast
  else
    match onSubmit formData with
    | .ok r => .delegated r
    | .error _ => .genericErrorToast

/-- The `onSubmit` callback the Create View supplies to `BookForm`:
`NewBook.handleSubmit` is total (its body is guarded by `try`/`catch`), so
as a promise-returning function it always resolves. -/
def NewBook.submitCallback (user dbError : Option String) :
    BookFormData → Except Unit NewBookOutcome :=
  fun d => Except.ok (NewBook.handleSubmit user dbError d)

/-- The `onSubmit` callback the Detail/Edit View supplies to `BookForm`:
`BookDetail.handleUpdate` is total, so it always resolves. -/
def BookDetail.updateCallback (id dbError : Option String) :
    BookFormData → Except Unit UpdateOutcome :=
  fun d => Except.ok (BookDetail.handleUpdate id dbError d)

/-- The slice of auth context `ProtectedRoute` reads: the loading flag and
the current user (modelled by an opaque user id string). -/
structure AuthState where
  loading : Bool
  user : Option String
deriving DecidableEq

/-- What `ProtectedRoute` renders. -/
inductive GuardRender
  | spinner
  | redirect (target : String) (replaceHistory : Bool)
  | content
deriving DecidableEq

/-- `ProtectedRoute.tsx`: spinner while loading, `<Navigate to="/login"
replace />` when resolved without a user, the wrapped children otherwise. -/
def ProtectedRoute.render (st : AuthState) : GuardRender :=
  if st.loading then .spinner
  else
    match st.user with
    | none => .redirect "/login" true
    | some _ => .content

/-- A collaborator session; its `user` field is the user the provider
derives from it. -/
structure Session where
  user : String
deriving DecidableEq

/-- The state triple the `AuthProvider` keeps in React state. -/
structure AuthProviderState where
  user : Option String
  session : Option Session
  loading : Bool
deriving DecidableEq

/-- The `onAuthStateChange` handler of `useAuth.tsx`: `setSession(session)`,
`setUser(session?.user ?? null)`, `setLoading(false)`. -/
def AuthProvider.onAuthStateChange (sess : Option Session)
    (st : AuthProviderState) : AuthProviderState :=
  { st with session := sess, user := sess.map Session.user, loading := false }

/-- The `getSession().then` continuation of `useAuth.tsx`: `setSession(session)`,
`setUser(session?.user ?? null)`, `setLoading(false)`. -/
def AuthProvider.getSessionThen (sess : Option Session)
    (st : AuthProviderState) : AuthProviderState :=
  { st with session := sess, user := sess.map Session.user, loading := false }

/-- The calls the `AuthProvider` mount effect and its cleanup make on the
identity collaborator. -/
inductive AuthEffect
  | subscribeAuthChanges
  | getCurrentSession
  | unsubscribe
deriving DecidableEq

/-- The collaborator calls issued by the `useEffect` body of `useAuth.tsx`,
in program order: `supabase.auth.onAuthStateChange(...)` first, then
`supabase.auth.getSession()`. -/
def AuthProvider.mountEffects : List AuthEffect :=
  [.subscribeAuthChanges, .getCurrentSession]

/-- The collaborator calls issued by the effect cleanup of `useAuth.tsx`:
`subscription.unsubscribe()`, once. -/
def AuthProvider.cleanupEffects : List AuthEffect :=
  [.unsubscribe]

/-- `useAuth.tsx` `signIn`: destructures `{ error }` from the collaborator
response and returns it as a value (no throw path exists in its body). -/
def AuthProvider.signIn (collaboratorError : Option String) : Option String :=
  collaboratorError

/-- `useAuth.tsx` `signUp`: likewise returns the collaborator error as a
value. -/
def AuthProvider.signUp (collaboratorError : Option String) : Option String :=
  collaboratorError

/-- The message rewriting in `Login` `handleAuth`: two known substrings get
friendly text (the invalid-credentials branch is checked first), every other
message passes through. -/
def Login.friendlyMessage (m : String) : String :=
  if jsIncludes m "Invalid login credentials" then
    "Invalid email or password. Please try again."
  else if jsIncludes m "User already registered" then
    "This email is already registered. Please sign in instead."
  else m

/-- The two tabs of the Login page. -/
inductive AuthMode
  | signin
  | signup
deriving DecidableEq

/-- Outcome of one run of `Login` `handleAuth` past validation. -/
inductive LoginOutcome
  | authErrorToast (message : String)
  | signedIn
  | signupSuccessToast
deriving DecidableEq

/-- `Login` `handleAuth` after client-side validation passed, as a function
of the error value returned by `signIn`/`signUp`: an error is mapped through
`Login.friendlyMessage` into the authentication-error toast; otherwise
sign-up toasts and navigates while sign-in relies on the user effect. -/
def Login.handleAuthValidated (mode : AuthMode) (authError : Option String) :
    LoginOutcome :=
  match authError with
  | some m => .authErrorToast (Login.friendlyMessage m)
  | none =>
    match mode with
    | .signin => .signedIn
    | .signup => .signupSuccessToast

/-- The "Dune" record of the filtering scenario. -/
def exampleDune : Book :=
  { id := "1", user_id := "u", title := "Dune", author := some "Herbert",
    status := .read, rating := none, review := none, is_favorite := false,
    reading_progress := none }

/-- The "Hobbit" record (author absent) of the filtering scenario. -/
def exampleHobbit : Book :=
  { id := "2", user_id := "u", title := "Hobbit", author := none,
    status := .want_to_read, rating := none, review := none,
    is_favorite := false, reading_progress := none }

/-- The create-scenario draft
`{title: " Dune ", author: "", status: "want_to_read", rating: null,
review: "", is_favorite: false, reading_progress: 0}`. -/
def duneDraftExample : BookFormData :=
  { title := " Dune ", author := "", status := .want_to_read, rating := none,
    review := "", is_favorite := false, reading_progress := 0 }

/-- A collaborator error message containing both known substrings at once. -/
def mixedAuthErrorMessage : String :=
  "Invalid login credentials; User already registered"

/-- A stored row is well formed when it lies in the image of the client's
own normalization: trimmed title, author and review absent or trimmed and
non-empty, rating absent or non-zero (the data model keeps it in 1..5). -/
def storedWellFormed (b : Book) : Bool :=
  (jsTrim b.title == b.title) &&
    (match b.author with
     | none => true
     | some a => jsTrim a == a && a != "") &&
    (match b.review with
     | none => true
     | some r => jsTrim r == r && r != "") &&
    (match b.rating with
     | none => true
     | some n => n != 0)

/-- The update payload produced by fetching a row, seeding the edit form
from it, and submitting the form without edits. -/
def editRoundTrip (b : Book) : BookUpdate :=
  BookDetail.updatePayload (BookForm.initFormData (BookDetail.initialData b))

/-- A concrete stored row used to instantiate the round-trip theorem. -/
def exampleStored : Book :=
  { id := "b1", user_id := "u1", title := "Dune", author := some "Frank Herbert",
    status := .reading, rating := some 5, review := some "A classic.",
    is_favorite := true, reading_progress := some 40 }

/-! ## Helper lemmas -/

theorem jsIncludes_empty_right (s : String) : jsIncludes s "" = true := by
  unfold jsIncludes charsContain
  cases s.data <;> simp [List.isPrefixOf]

theorem matchesSearch_empty_query (b : Book) : matchesSearch b "" = true := by
  unfold matchesSearch
  rw [show jsToLower "" = "" from rfl, jsIncludes_empty_right, Bool.true_or]

theorem matchesSearch_true_iff (b : Book) (q : String) :
    matchesSearch b q = true ↔
      jsIncludes (jsToLower b.title) (jsToLower q) = true ∨
        ∃ a, b.author = some a ∧ jsIncludes (jsToLower a) (jsToLower q) = true := by
  cases h : b.author <;> simp [matchesSearch, h]

theorem matchesStatus_true_iff (b : Book) (f : String) :
    matchesStatus b f = true ↔ (f = "all" ∨ b.status.asString = f) := by
  simp [matchesStatus]

theorem jsStrOrNull_eq_none_iff (s : String) : jsStrOrNull s = none ↔ s = "" := by
  unfold jsStrOrNull
  split <;> simp_all

theorem jsStrOrNull_of_ne_empty (s : String) (h : s ≠ "") :
    jsStrOrNull s = some s := by
  simp [jsStrOrNull, h]

theorem jsStrOr_empty_right (s : String) : jsStrOr s "" = s := by
  unfold jsStrOr
  split <;> simp_all

theorem jsIntOr_zero_right (n : Int) : jsIntOr n 0 = n := by
  unfold jsIntOr
  split <;> simp_all

theorem jsBoolOr_false_right (b : Bool) : jsBoolOr b false = b := by
  unfold jsBoolOr
  split <;> simp_all

/-! ## Claim theorems -/

/-- C1: the List View's client-side filter keeps exactly the records whose
title, or present author, case-insensitively contains the query, and whose
status matches the filter unless the filter is "all"; in particular the
Dune/Hobbit "herb" search keeps exactly Dune, the empty query with status
filter "reading" keeps exactly the records with status reading, and a query
matching no title or author yields the empty list under any status filter. -/
theorem filteredBooks_spec :
    (∀ (books : List Book) (q f : String) (b : Book),
        b ∈ filteredBooks books q f ↔
          b ∈ books ∧
            (jsIncludes (jsToLower b.title) (jsToLower q) = true ∨
              ∃ a, b.author = some a ∧ jsIncludes (jsToLower a) (jsToLower q) = true) ∧
            (f = "all" ∨ b.status.asString = f)) ∧
    filteredBooks [exampleDune, exampleHobbit] "herb" "all" = [exampleDune] ∧
    (∀ books : List Book,
        filteredBooks books "" "reading" =
          books.filter (fun b => b.status.asString == "reading")) ∧
    (∀ (books : List Book) (q f : String),
        (∀ b ∈ books, matchesSearch b q = false) → filteredBooks books q f = []) := by
  refine ⟨?_, by decide, ?_, ?_⟩
  · intro books q f b
    rw [filteredBooks, List.mem_filter, Bool.and_eq_true, matchesSearch_true_iff,
      matchesStatus_true_iff]
  · intro books
    refine List.filter_congr ?_
    intro x _
    rw [matchesSearch_empty_query x, Bool.true_and]
    show (("reading" : String) == "all" || x.status.asString == "reading") =
      (x.status.asString == "reading")
    rw [show (("reading" : String) == "all") = false from by decide, Bool.false_or]
  · intro books q f h
    rw [filteredBooks, List.filter_eq_nil_iff]
    intro b hb
    simp [h b hb]

/-- C1 witness: a query matching neither title nor author yields the empty
list, instantiated on the Dune/Hobbit list with query "zzz" and status
filter "reading". -/
theorem filteredBooks_spec_witness :
    filteredBooks [exampleDune, exampleHobbit] "zzz" "reading" = [] :=
  filteredBooks_spec.2.2.2 [exampleDune, exampleHobbit] "zzz" "reading" (by decide)

/-- C2: the Create View's inserted row has a trimmed title; author and
review are null exactly when the submitted string trims to empty and the
trimmed string otherwise; status, rating, is_favorite and reading_progress
pass through; and the scenario draft {" Dune ", "", want_to_read, null, "",
false, 0} is stored as {title "Dune", author null, review null, rest
unchanged}. -/
theorem newBook_insert_normalization :
    (∀ (uid : String) (d : BookFormData),
        (NewBook.insertRow uid d).title = jsTrim d.title ∧
        ((NewBook.insertRow uid d).author = none ↔ jsTrim d.author = "") ∧
        (jsTrim d.author ≠ "" → (NewBook.insertRow uid d).author = some (jsTrim d.author)) ∧
        ((NewBook.insertRow uid d).review = none ↔ jsTrim d.review = "") ∧
        (jsTrim d.review ≠ "" → (NewBook.insertRow uid d).review = some (jsTrim d.review)) ∧
        (NewBook.insertRow uid d).status = d.status ∧
        (NewBook.insertRow uid d).rating = d.rating ∧
        (NewBook.insertRow uid d).is_favorite = d.is_favorite ∧
        (NewBook.insertRow uid d).reading_progress = d.reading_progress) ∧
    NewBook.insertRow "u1" duneDraftExample =
      { user_id := "u1", title := "Dune", author := none, status := .want_to_read,
        rating := none, review := none, is_favorite := false,
        reading_progress := 0 } := by
  refine ⟨?_, by decide⟩
  intro uid d
  exact ⟨rfl, jsStrOrNull_eq_none_iff _, jsStrOrNull_of_ne_empty _,
    jsStrOrNull_eq_none_iff _, jsStrOrNull_of_ne_empty _, rfl, rfl, rfl, rfl⟩

/-- C2 witness: a whitespace-padded non-empty author is stored trimmed,
instantiated on a concrete draft. -/
theorem newBook_insert_normalization_witness :
    (NewBook.insertRow "u1"
        { title := "Dune", author := " Frank Herbert ", status := .read,
          rating := some 5, review := "  ", is_favorite := true,
          reading_progress := 100 }).author = some "Frank Herbert" :=
  (newBook_insert_normalization.1 "u1"
      { title := "Dune", author := " Frank Herbert ", status := .read,
        rating := some 5, review := "  ", is_favorite := true,
        reading_progress := 100 }).2.2.1 (by decide)

/-- C3: the Detail/Edit View's update is idempotent — applying the stored
effect of the same payload twice equals applying it once. -/
theorem update_idempotent :
    ∀ (b : Book) (d : BookFormData),
      applyUpdate (applyUpdate b (BookDetail.updatePayload d))
          (BookDetail.updatePayload d) =
        applyUpdate b (BookDetail.updatePayload d) := by
  intro b d
  rfl

/-- C4: the Detail View's fetch has exactly three outcomes — a returned row
populates the record state with no notification and no redirect; an empty
result shows the specific "Book not found" notification and redirects to
the list; a query error shows the generic "Error" notification and performs
the same redirect; the two failure notifications differ and neither failure
path populates the record state. -/
theorem fetchBook_outcomes :
    (∀ b : Book, BookDetail.fetchBook (some b) none = ⟨some b, none, false⟩) ∧
    BookDetail.fetchBook none none = ⟨none, some "Book not found", true⟩ ∧
    (∀ (data : Option Book) (e : String),
        BookDetail.fetchBook data (some e) = ⟨none, some "Error", true⟩) ∧
    (∀ (data : Option Book) (e : String),
        (BookDetail.fetchBook none none).toastTitle ≠
          (BookDetail.fetchBook data (some e)).toastTitle) ∧
    (BookDetail.fetchBook none none).book = none ∧
    (∀ (data : Option Book) (e : String),
        (BookDetail.fetchBook data (some e)).book = none) := by
  refine ⟨fun b => rfl, rfl, fun data e => rfl, ?_, rfl, fun data e => rfl⟩
  intro data e
  simp [BookDetail.fetchBook, jsTryCatch]

/-- C4 witness: the not-found notification differs from the error
notification, instantiated at an empty result and a failed query. -/
theorem fetchBook_outcomes_witness :
    (BookDetail.fetchBook none none).toastTitle ≠
      (BookDetail.fetchBook none (some "boom")).toastTitle :=
  fetchBook_outcomes.2.2.2.1 none "boom"

/-- C5: if the draft title trims to empty the Form Component shows the
blocking "Title required" notification and the caller-supplied submit
function is not invoked (the outcome is independent of it); if the title is
non-empty after trimming the caller's submit function is invoked with the
full draft and its resolution decides the outcome. -/
theorem bookForm_validation :
    ∀ (γ : Type) (f g : BookFormData → Except Unit γ) (d : BookFormData),
      (jsTrim d.title = "" →
        BookForm.handleSubmit f d = .titleRequiredToast ∧
          BookForm.handleSubmit f d = BookForm.handleSubmit g d) ∧
      (jsTrim d.title ≠ "" →
        (∀ r, f d = .ok r → BookForm.handleSubmit f d = .delegated r) ∧
          (f d = .error () → BookForm.handleSubmit f d = .genericErrorToast)) := by
  intro γ f g d
  constructor
  · intro h
    constructor <;> simp [BookForm.handleSubmit, h]
  · intro h
    constructor
    · intro r hr
      simp [BookForm.handleSubmit, h, hr]
    · intro hr
      simp [BookForm.handleSubmit, h, hr]

/-- C5 witness: a whitespace-only title blocks submission while a non-empty
title delegates, instantiated at concrete drafts and a constant callback. -/
theorem bookForm_validation_witness :
    BookForm.handleSubmit (fun _ => Except.ok 7)
        { title := "   ", author := "", status := .want_to_read, rating := none,
          review := "", is_favorite := false, reading_progress := 0 } =
      .titleRequiredToast ∧
    BookForm.handleSubmit (fun _ => Except.ok 7)
        { title := "Dune", author := "", status := .want_to_read, rating := none,
          review := "", is_favorite := false, reading_progress := 0 } =
      .delegated 7 :=
  ⟨((bookForm_validation Nat (fun _ => Except.ok 7) (fun _ => Except.ok 7)
      { title := "   ", author := "", status := .want_to_read, rating := none,
        review := "", is_favorite := false, reading_progress := 0 }).1
      (by decide)).1,
   ((bookForm_validation Nat (fun _ => Except.ok 7) (fun _ => Except.ok 7)
      { title := "Dune", author := "", status := .want_to_read, rating := none,
        review := "", is_favorite := false, reading_progress := 0 }).2
      (by decide)).1 7 rfl⟩

/-- C6: while the session is resolving the Route Guard renders only the
loading indicator; resolved without a user it performs a replacing redirect
to the sign-in view; resolved with a user it renders the wrapped content;
and the content is rendered only when resolved and authenticated. -/
theorem protectedRoute_spec :
    ∀ st : AuthState,
      (st.loading = true → ProtectedRoute.render st = .spinner) ∧
      (st.loading = false → st.user = none →
        ProtectedRoute.render st = .redirect "/login" true) ∧
      (∀ u, st.loading = false → st.user = some u →
        ProtectedRoute.render st = .content) ∧
      (ProtectedRoute.render st = .content → st.loading = false ∧ st.user ≠ none) := by
  intro st
  obtain ⟨l, u⟩ := st
  cases l <;> cases u <;> simp [ProtectedRoute.render]

/-- C6 witness: the three states instantiated concretely — loading renders
the spinner, unauthenticated redirects with replace, authenticated renders
the content. -/
theorem protectedRoute_spec_witness :
    ProtectedRoute.render ⟨true, none⟩ = .spinner ∧
    ProtectedRoute.render ⟨false, none⟩ = .redirect "/login" true ∧
    ProtectedRoute.render ⟨false, some "u1"⟩ = .content :=
  ⟨(protectedRoute_spec ⟨true, none⟩).1 rfl,
   (protectedRoute_spec ⟨false, none⟩).2.1 rfl rfl,
   (protectedRoute_spec ⟨false, some "u1"⟩).2.2.1 "u1" rfl rfl⟩

/-- C7: in the Session Provider's mount effect the auth-state-change
subscription is issued strictly before the current-session request; the
change-notification handler and the session-fetch continuation are the same
state update, both clearing the loading flag; and the cleanup releases the
subscription exactly once. -/
theorem authProvider_init_spec :
    AuthProvider.mountEffects.indexOf AuthEffect.subscribeAuthChanges <
      AuthProvider.mountEffects.indexOf AuthEffect.getCurrentSession ∧
    (∀ (sess : Option Session) (st : AuthProviderState),
        AuthProvider.onAuthStateChange sess st = AuthProvider.getSessionThen sess st) ∧
    (∀ (sess : Option Session) (st : AuthProviderState),
        (AuthProvider.onAuthStateChange sess st).loading = false) ∧
    (∀ (sess : Option Session) (st : AuthProviderState),
        (AuthProvider.getSessionThen sess st).loading = false) ∧
    AuthProvider.cleanupEffects.count AuthEffect.unsubscribe = 1 :=
  ⟨by decide, fun sess st => rfl, fun sess st => rfl, fun sess st => rfl, by decide⟩

/-- C8 counterexample: a collaborator message containing the
duplicate-registration substring is NOT always surfaced as the friendly
already-registered text — when it also contains the invalid-credentials
substring the first branch wins, so the claim's second condition fails. -/
theorem login_mapping_counterexample :
    jsIncludes mixedAuthErrorMessage "User already registered" = true ∧
    Login.friendlyMessage mixedAuthErrorMessage ≠
      "This email is already registered. Please sign in instead." := by
  decide

/-- C8 (amended): sign-in/sign-up collaborator failures are returned as
error values and mapped at the Login call site to a notification; a message
containing the invalid-credentials substring surfaces as the friendly
invalid-credentials text; a message containing the duplicate-registration
substring but not the invalid-credentials substring surfaces as the
friendly already-registered text; any other message surfaces as-is. -/
theorem login_error_mapping :
    (∀ resp : Option String,
        AuthProvider.signIn resp = resp ∧ AuthProvider.signUp resp = resp) ∧
    (∀ (mode : AuthMode) (m : String),
        Login.handleAuthValidated mode (some m) =
          .authErrorToast (Login.friendlyMessage m)) ∧
    (∀ m, jsIncludes m "Invalid login credentials" = true →
        Login.friendlyMessage m = "Invalid email or password. Please try again.") ∧
    (∀ m, jsIncludes m "Invalid login credentials" = false →
        jsIncludes m "User already registered" = true →
        Login.friendlyMessage m =
          "This email is already registered. Please sign in instead.") ∧
    (∀ m, jsIncludes m "Invalid login credentials" = false →
        jsIncludes m "User already registered" = false →
        Login.friendlyMessage m = m) := by
  refine ⟨fun resp => ⟨rfl, rfl⟩, fun mode m => rfl, ?_, ?_, ?_⟩
  · intro m h
    simp [Login.friendlyMessage, h]
  · intro m h1 h2
    simp [Login.friendlyMessage, h1, h2]
  · intro m h1 h2
    simp [Login.friendlyMessage, h1, h2]

/-- C8 witness: the three mapping branches instantiated at concrete
collaborator messages. -/
theorem login_error_mapping_witness :
    Login.friendlyMessage "Invalid login credentials" =
      "Invalid email or password. Please try again." ∧
    Login.friendlyMessage "User already registered" =
      "This email is already registered. Please sign in instead." ∧
    Login.friendlyMessage "fetch failed" = "fetch failed" :=
  ⟨login_error_mapping.2.2.1 "Invalid login credentials" (by decide),
   login_error_mapping.2.2.2.1 "User already registered" (by decide) (by decide),
   login_error_mapping.2.2.2.2 "fetch failed" (by decide) (by decide)⟩

/-- C9: for a well-formed stored row, seeding the edit form from it and
submitting without edits yields an update payload whose title, author,
status, rating, review and is_favorite equal the stored values; the payload
carries the stored reading_progress when it is non-null and 0 when it is
null, so re-applying the payload reproduces the stored row exactly when
reading_progress is non-null and rewrites a null reading_progress to 0. -/
theorem edit_roundtrip_spec :
    ∀ b : Book, storedWellFormed b = true →
      (editRoundTrip b).title = b.title ∧
      (editRoundTrip b).author = b.author ∧
      (editRoundTrip b).status = b.status ∧
      (editRoundTrip b).rating = b.rating ∧
      (editRoundTrip b).review = b.review ∧
      (editRoundTrip b).is_favorite = b.is_favorite ∧
      (∀ n, b.reading_progress = some n → (editRoundTrip b).reading_progress = n) ∧
      (b.reading_progress = none → (editRoundTrip b).reading_progress = 0) ∧
      (b.reading_progress ≠ none → applyUpdate b (editRoundTrip b) = b) ∧
      (b.reading_progress = none →
        applyUpdate b (editRoundTrip b) = { b with reading_progress := some 0 }) := by
  intro b h
  obtain ⟨id, uid, title, author, status, rating, review, fav, prog⟩ := b
  cases author <;> cases review <;> cases rating <;> cases prog <;>
    · simp only [storedWellFormed, Bool.and_eq_true, beq_iff_eq, bne_iff_ne] at h
      simp [editRoundTrip, BookDetail.updatePayload, BookForm.initFormData,
        BookDetail.initialData, applyUpdate, jsStrOr_empty_right,
        jsIntOr_zero_right, jsBoolOr_false_right, jsNumOrNull, jsStrOrNull, h,
        show jsTrim "" = "" from rfl]

/-- C9 witness: the round-trip reproduces a concrete well-formed stored row
with non-null reading_progress. -/
theorem edit_roundtrip_spec_witness :
    applyUpdate exampleStored (editRoundTrip exampleStored) = exampleStored :=
  (edit_roundtrip_spec exampleStored (by decide)).2.2.2.2.2.2.2.2.1 (by decide)

/-- C10: when the submitted title is non-empty after trimming, wiring the
Form Component to the Create View's or the Detail/Edit View's submit
callback always yields the delegated outcome — both callbacks resolve for
every collaborator response, so the form's local generic-failure
notification branch is unreachable, while each callback reports its own
failure notification on a database error. -/
theorem form_generic_toast_unreachable :
    ∀ (user id dbError : Option String) (d : BookFormData),
      jsTrim d.title ≠ "" →
      BookForm.handleSubmit (NewBook.submitCallback user dbError) d =
          .delegated (NewBook.handleSubmit user dbError d) ∧
        BookForm.handleSubmit (NewBook.submitCallback user dbError) d ≠
          .genericErrorToast ∧
        BookForm.handleSubmit (BookDetail.updateCallback id dbError) d =
          .delegated (BookDetail.handleUpdate id dbError d) ∧
        BookForm.handleSubmit (BookDetail.updateCallback id dbError) d ≠
          .genericErrorToast ∧
        (∀ (u e : String), NewBook.handleSubmit (some u) (some e) d = .failedToast) ∧
        (∀ (i e : String), BookDetail.handleUpdate (some i) (some e) d = .failedToast) := by
  intro user id dbError d h
  refine ⟨?_, ?_, ?_, ?_, fun u e => rfl, fun i e => rfl⟩ <;>
    simp [BookForm.handleSubmit, NewBook.submitCallback, BookDetail.updateCallback, h]

/-- C10 witness: with a failing insert and a non-blank title, the form
reports the Create View's own failure outcome, not its local generic
toast. -/
theorem form_generic_toast_unreachable_witness :
    BookForm.handleSubmit (NewBook.submitCallback (some "u1") (some "db down"))
        { title := "Dune", author := "", status := .want_to_read, rating := none,
          review := "", is_favorite := false, reading_progress := 0 } =
      .delegated NewBookOutcome.failedToast :=
  (form_generic_toast_unreachable (some "u1") (some "b7") (some "db down")
      { title := "Dune", author := "", status := .want_to_read, rating := none,
        review := "", is_favorite := false, reading_progress := 0 }
      (by decide)).1
